import Mathlib

/-!
Shallow embedding of the dynamic-schema employee record store implemented in
src/main.py (sqlite3-backed).  The `employees` table is modelled as a `Store`:
an ordered list of non-id columns (the id column is implicit, it is the
integer key of each row) together with the list of rows in insertion order,
which for this program coincides with ascending rowid order.  SQL values are
modelled by `Value` (NULL / TEXT / numeric, with the numeric REAL column
restricted to integer-valued contents, which is all the claims exercise);
engine failures by `DBError`.  Each database function of the source is
translated one-to-one below; the statement strings that the source builds by
f-string interpolation are reproduced by `alter_column_sql`.
-/

namespace SqlInt

/-- A SQLite storage value as this program uses them: NULL, TEXT, or a
numeric value (the `salary real` column; modelled over the integers since
every value the program and the claims handle is integral). -/
inductive Value
  | null
  | text (s : String)
  | num (n : Int)
deriving DecidableEq

/-- A non-id column of the `employees` table: its name and whether it carries
a NOT NULL constraint.  From `create_table` (src/main.py:14-24): `name` and
`department` are `text NOT NULL`, `salary` is a nullable `real`; columns
added later by `add_extra_columns` are nullable `TEXT`. -/
structure Col where
  name : String
  nn : Bool
deriving DecidableEq

/-- Engine-level (sqlite3) failures this program can trigger.  The source
defines no error types of its own: every failure surfaces as a raised
sqlite3 error.  `duplicateColumn` is the `duplicate column name` error from
ALTER TABLE, `noSuchColumn` the unknown-column error from INSERT/UPDATE,
`notNullViolation` the NOT NULL constraint failure, `badSql` the syntax
error produced by an empty SET/column list. -/
inductive DBError
  | duplicateColumn
  | noSuchColumn
  | notNullViolation
  | badSql
deriving DecidableEq

/-- The `employees` table state: the ordered non-id columns and the rows,
each row being its integer id (rowid / INTEGER PRIMARY KEY) together with
the values of the non-id columns in schema order. -/
structure Store where
  schema : List Col
  rows : List (Int × List Value)
deriving DecidableEq

/-- A caller-supplied record: a Python dict mapping attribute name to value
(keys unique, insertion-ordered).  The UI never puts an `id` key in it. -/
abbrev Record := List (String × Value)

/-- Dict lookup: the value bound to key `c`, if present. -/
def lookupVal (employee : Record) (c : String) : Option Value :=
  (employee.find? (fun kv => kv.1 == c)).map (fun kv => kv.2)

/-- `create_table` (src/main.py:14-24): CREATE TABLE IF NOT EXISTS employees
(id integer PRIMARY KEY, name text NOT NULL, department text NOT NULL,
salary real).  A fresh store has those three non-id columns and no rows. -/
def initStore : Store :=
  { schema := [⟨"name", true⟩, ⟨"department", true⟩, ⟨"salary", false⟩],
    rows := [] }

/-- `get_columns` (src/main.py:87-92): PRAGMA table_info minus the `id`
column, in order — here simply the names of the schema columns. -/
def get_columns (s : Store) : List String :=
  s.schema.map (fun c => c.name)

/-- The rowid sqlite assigns to a new row of a table with an INTEGER PRIMARY
KEY (and no AUTOINCREMENT): one more than the largest rowid in the table
(1 on an empty table); this is what `cur.lastrowid` returns after the
INSERT in src/main.py:33. -/
def newId (s : Store) : Int :=
  s.rows.foldl (fun m r => max m r.1) 0 + 1

/-- `insert_employee` (src/main.py:26-33): builds
`INSERT INTO employees (k1, ..., kn) VALUES (?, ..., ?)` from the dict's
keys and executes it with the dict's values.  No validation is done by the
program itself; failures are the engine's: an empty dict yields a syntax
error, an unknown column name yields `noSuchColumn`, and a NOT NULL column
left absent (stored as NULL) or explicitly NULL yields `notNullViolation`.
Columns the dict omits are stored as NULL.  Returns the updated store and
the new rowid (`cur.lastrowid`). -/
def insert_employee (s : Store) (employee : Record) :
    Except DBError (Store × Int) :=
  if employee.isEmpty then Except.error DBError.badSql
  else if employee.any (fun kv => s.schema.all (fun c => c.name != kv.1)) then
    Except.error DBError.noSuchColumn
  else if s.schema.any
      (fun c => c.nn && ((lookupVal employee c.name).getD Value.null == Value.null)) then
    Except.error DBError.notNullViolation
  else
    Except.ok
      ({ s with
          rows := s.rows ++
            [(newId s, s.schema.map (fun c => (lookupVal employee c.name).getD Value.null))] },
        newId s)

/-- Row update: each schema column keeps its old value unless the dict
binds that column's name, in which case it takes the dict's value
(the `SET c1 = ?, ..., cn = ?` list of src/main.py:36). -/
def updateVals (schema : List Col) (employee : Record) (vals : List Value) :
    List Value :=
  (schema.zip vals).map (fun cv =>
    match lookupVal employee cv.1.name with
    | some v => v
    | none => cv.2)

/-- `update_employee` (src/main.py:35-40): builds
`UPDATE employees SET k1 = ?, ..., kn = ? WHERE id = ?` from the dict's keys.
An empty dict yields a syntax error and an unknown column `noSuchColumn`
(both detected at prepare time, whether or not any row matches); setting a
NOT NULL column to NULL fails only if some row actually matches.  When no
row has the given id the statement simply affects zero rows: no error. -/
def update_employee (s : Store) (employee : Record) (employee_id : Int) :
    Except DBError Store :=
  if employee.isEmpty then Except.error DBError.badSql
  else if employee.any (fun kv => s.schema.all (fun c => c.name != kv.1)) then
    Except.error DBError.noSuchColumn
  else if s.rows.any (fun r => r.1 == employee_id) &&
      s.schema.any (fun c => c.nn && (lookupVal employee c.name == some Value.null)) then
    Except.error DBError.notNullViolation
  else
    Except.ok
      { s with
        rows := s.rows.map (fun r =>
          if r.1 == employee_id then (r.1, updateVals s.schema employee r.2) else r) }

/-- `delete_employee` (src/main.py:42-46): `DELETE FROM employees WHERE id=?`.
Removes the matching row if any; affecting zero rows is not an error, so the
operation is total. -/
def delete_employee (s : Store) (id : Int) : Store :=
  { s with rows := s.rows.filter (fun r => r.1 != id) }

/-- `select_all_employees` (src/main.py:48-52): `SELECT * FROM employees`,
every row in rowid order. -/
def select_all_employees (s : Store) : List (Int × List Value) :=
  s.rows

/-- `select_employee_by_id` (src/main.py:54-58):
`SELECT * FROM employees WHERE id=?` and `fetchone()`. -/
def select_employee_by_id (s : Store) (id : Int) : Option (Int × List Value) :=
  s.rows.find? (fun r => r.1 == id)

/-- One WHERE-clause conjunct that `select_employees_filtered` can append
to its query: `department=?`, `salary>=?`, or `salary<=?`. -/
inductive Cond
  | deptEq (d : String)
  | salGE (v : Int)
  | salLE (v : Int)
deriving DecidableEq

/-- The value a row holds in the named column (SELECT of that column):
pair the schema's column names with the row's values and take the first
match. -/
def colVal (schema : List Col) (vals : List Value) (a : String) : Option Value :=
  (((schema.map (fun c => c.name)).zip vals).find? (fun p => p.1 == a)).map
    (fun p => p.2)

/-- SQL evaluation of one conjunct on one row.  Comparisons with NULL are
not true (SQL three-valued logic: a NULL salary satisfies neither
`salary>=?` nor `salary<=?`), and `department=?` with a text parameter holds
only for an equal text value. -/
def evalCond (schema : List Col) (vals : List Value) : Cond → Bool
  | Cond.deptEq d => colVal schema vals "department" == some (Value.text d)
  | Cond.salGE v =>
    match colVal schema vals "salary" with
    | some (Value.num n) => decide (v ≤ n)
    | _ => false
  | Cond.salLE v =>
    match colVal schema vals "salary" with
    | some (Value.num n) => decide (n ≤ v)
    | _ => false

/-- The WHERE-clause conjuncts `select_employees_filtered`
(src/main.py:60-79) accumulates after `WHERE 1=1`: each parameter
contributes its conjunct only when Python finds it truthy
(`if department:`, `if min_salary:`, `if max_salary:`), so `None`, the
empty string and `0` all contribute nothing. -/
def buildConds (department : Option String) (min_salary max_salary : Option Int) :
    List Cond :=
  (match department with
   | some d => if d != "" then [Cond.deptEq d] else []
   | none => []) ++
  (match min_salary with
   | some v => if v != 0 then [Cond.salGE v] else []
   | none => []) ++
  (match max_salary with
   | some v => if v != 0 then [Cond.salLE v] else []
   | none => [])

/-- `select_employees_filtered` (src/main.py:60-79): SELECT * with the
accumulated conjuncts; a row is returned when every conjunct holds. -/
def select_employees_filtered (s : Store) (department : Option String)
    (min_salary max_salary : Option Int) : List (Int × List Value) :=
  s.rows.filter (fun r =>
    (buildConds department min_salary max_salary).all (evalCond s.schema r.2))

/-- The statement string `add_extra_columns` (src/main.py:81-85) builds for
one column by f-string interpolation: the caller-supplied name is spliced
in verbatim, with no quoting, escaping or validation. -/
def alter_column_sql (column : String) : String :=
  "ALTER TABLE employees ADD COLUMN " ++ column ++ " TEXT"

/-- The engine's execution of one `ALTER TABLE employees ADD COLUMN c TEXT`
for an identifier-shaped name: fails with `duplicate column name` when the
table already has a column named `c` (including the implicit `id` column),
otherwise appends a nullable TEXT column. -/
def add_column (s : Store) (column : String) : Except DBError Store :=
  if column == "id" || s.schema.any (fun c => c.name == column) then
    Except.error DBError.duplicateColumn
  else
    Except.ok { s with schema := s.schema ++ [⟨column, false⟩] }

/-- `add_extra_columns` (src/main.py:81-85): executes one ALTER TABLE per
name, in order.  Each ALTER is DDL and takes effect as soon as it executes;
a failure raises out of the loop, keeping the columns already added and
skipping the rest.  The result is the store after the statements that did
execute, together with the error that stopped the loop, if any. -/
def add_extra_columns (s : Store) (columns : List String) : Store × Option DBError :=
  match columns with
  | [] => (s, none)
  | c :: rest =>
    match add_column s c with
    | Except.error e => (s, some e)
    | Except.ok s2 => add_extra_columns s2 rest

/-- Spec-side filter predicate, written from the words of the spec for the
query-filter claim: the supplied predicates are AND-combined, an absent
predicate imposes no constraint, department matches by exact string
equality, and the record's salary must lie within the inclusive bounds
(a NULL or missing salary lies in no interval). -/
def spec_filter_pred (department : Option String) (min_salary max_salary : Option Int)
    (schema : List Col) (vals : List Value) : Bool :=
  (match department with
   | none => true
   | some d => colVal schema vals "department" == some (Value.text d)) &&
  (match min_salary with
   | none => true
   | some v =>
     match colVal schema vals "salary" with
     | some (Value.num n) => decide (v ≤ n)
     | _ => false) &&
  (match max_salary with
   | none => true
   | some v =>
     match colVal schema vals "salary" with
     | some (Value.num n) => decide (n ≤ v)
     | _ => false)

/-- The store after `addAttributes({"bonus"})` on a fresh store. -/
def store_bonus : Store := (add_extra_columns initStore ["bonus"]).1

/-- The store after `addAttributes({"nickname"})` on a fresh store. -/
def store_nick : Store := (add_extra_columns initStore ["nickname"]).1

/-- A record supplying the three initial attributes (and nothing more). -/
def rec_ana : Record :=
  [("name", Value.text "Ana"), ("department", Value.text "Eng"),
   ("salary", Value.num 70000)]

/-- A store holding one record whose salary is NULL. -/
def storeN : Store :=
  { schema := initStore.schema,
    rows := [(1, [Value.text "N", Value.text "Eng", Value.null])] }

/-- A store holding two records with numeric salaries. -/
def store_ex : Store :=
  { schema := initStore.schema,
    rows := [(1, [Value.text "Ana", Value.text "Eng", Value.num 70000]),
             (2, [Value.text "Bo", Value.text "Sales", Value.num 40000])] }

/-! ### Helper lemmas -/

/-- The initial accumulator is a lower bound of the max-fold over the rows. -/
theorem le_foldl_max (l : List (Int × List Value)) (a : Int) :
    a ≤ l.foldl (fun m r => max m r.1) a := by
  induction l generalizing a with
  | nil => exact le_refl a
  | cons x xs ih => exact le_trans (le_max_left a x.1) (ih (max a x.1))

/-- Every row's id is bounded by the max-fold over the rows. -/
theorem mem_le_foldl_max (l : List (Int × List Value)) (a : Int)
    (r : Int × List Value) (h : r ∈ l) :
    r.1 ≤ l.foldl (fun m x => max m x.1) a := by
  induction l generalizing a with
  | nil => cases h
  | cons x xs ih =>
    cases h with
    | head => exact le_trans (le_max_right a r.1) (le_foldl_max xs (max a r.1))
    | tail _ hx => exact ih (max a x.1) hx

/-- Mapping a function that fixes every member is the identity. -/
theorem map_noop {α : Type} (l : List α) (f : α → α) (h : ∀ x ∈ l, f x = x) :
    l.map f = l := by
  induction l with
  | nil => rfl
  | cons x xs ih =>
    simp only [List.map_cons, h x (List.mem_cons_self x xs)]
    rw [ih (fun y hy => h y (List.mem_cons_of_mem x hy))]

/-- Reading column `a` out of a row whose values were produced columnwise by
`f` from the column names yields `f a`, provided `a` is a column name. -/
theorem colVal_map (schema : List Col) (f : String → Value) (a : String)
    (h : a ∈ schema.map (fun c => c.name)) :
    colVal schema (schema.map (fun c => f c.name)) a = some (f a) := by
  induction schema with
  | nil => cases h
  | cons c cs ih =>
    by_cases hc : c.name = a
    · simp [colVal, hc]
    · have hne : (c.name == a) = false := by simp [hc]
      have h2 : a ∈ cs.map (fun c => c.name) := by
        rcases List.mem_cons.mp h with h1 | h1
        · exact absurd h1.symm hc
        · exact h1
      simpa [colVal, hne] using ih h2

/-- `find?` skips a prefix on which the predicate fails everywhere. -/
theorem find?_append_right {α : Type} (p : α → Bool) (l1 l2 : List α)
    (h : ∀ x ∈ l1, p x = false) :
    (l1 ++ l2).find? p = l2.find? p := by
  induction l1 with
  | nil => rfl
  | cons x xs ih =>
    have hx : p x = false := h x (List.mem_cons_self x xs)
    simp only [List.cons_append, List.find?_cons, hx]
    exact ih (fun y hy => h y (List.mem_cons_of_mem x hy))

/-- A successful `insert_employee`, spelled out: when the record is
nonempty, every key is a current column, and every NOT NULL column receives
a non-NULL value, the insert appends exactly one row under the fresh id
`newId s` — the row holding, for each schema column, the record's value for
that column, or NULL where the record has no such key. -/
theorem insert_employee_ok (s : Store) (employee : Record)
    (hne : employee ≠ [])
    (hsub : ∀ kv ∈ employee, kv.1 ∈ get_columns s)
    (hnn : ∀ c ∈ s.schema, c.nn = true →
      (lookupVal employee c.name).getD Value.null ≠ Value.null) :
    insert_employee s employee =
      Except.ok
        ({ s with
            rows := s.rows ++
              [(newId s,
                s.schema.map (fun c => (lookupVal employee c.name).getD Value.null))] },
          newId s) := by
  have h1 : employee.isEmpty = false := by
    cases employee with
    | nil => exact absurd rfl hne
    | cons kv tl => rfl
  have h2 : (employee.any fun kv => s.schema.all fun c => c.name != kv.1) = false := by
    rw [List.any_eq_false]
    intro kv hkv
    have hk := hsub kv hkv
    simp only [get_columns, List.mem_map] at hk
    rcases hk with ⟨col, hcol, hname⟩
    simp only [List.all_eq_true, not_forall]
    refine ⟨col, ?_⟩
    simp [hcol, hname]
  have h3 : (s.schema.any fun c =>
      c.nn && ((lookupVal employee c.name).getD Value.null == Value.null)) = false := by
    rw [List.any_eq_false]
    intro c hc
    by_cases hcn : c.nn = true
    · have := hnn c hc hcn
      simp [hcn, this]
    · simp [Bool.eq_false_iff.mpr hcn]
  simp [insert_employee, h1, h2, h3]

/-- Looking up a freshly appended row by its id succeeds when no earlier
row carries that id. -/
theorem find_appended_row (rows : List (Int × List Value)) (i : Int)
    (vals : List Value) (h : ∀ r ∈ rows, r.1 ≠ i) :
    (rows ++ [(i, vals)]).find? (fun r => r.1 == i) = some (i, vals) := by
  rw [find?_append_right]
  · simp [List.find?]
  · intro r hr
    simp [h r hr]

/-- The fresh id is distinct from every existing row id. -/
theorem newId_fresh (s : Store) (r : Int × List Value) (h : r ∈ s.rows) :
    r.1 ≠ newId s := by
  have hb := mem_le_foldl_max s.rows 0 r h
  intro he
  rw [he] at hb
  exact absurd hb (by simp [newId])

/-! ### Claim theorems -/

/-- Claim C1 (code_bug evidence): `add_extra_columns` performs no
sanitization at all.  The statement it executes for the unsafe caller input
`"x; DROP TABLE employees"` is that text spliced in verbatim, and a name
colliding with the reserved internal column `name` surfaces as the engine's
duplicate-column error — the program defines no SchemaError and validates
nothing before executing. -/
theorem add_columns_unsanitized_interpolation :
    alter_column_sql "x; DROP TABLE employees" =
      "ALTER TABLE employees ADD COLUMN x; DROP TABLE employees TEXT" ∧
    (add_extra_columns initStore ["name"]).2 = some DBError.duplicateColumn := by
  exact ⟨rfl, rfl⟩

/-- Claim C2 counterexample: after `addAttributes({"bonus"})`, calling it
again with `"bonus"` is not a no-op — it fails with the engine's
duplicate-column error, contradicting the claim that a duplicate add does
not fail the batch. -/
theorem add_duplicate_column_errs_cex :
    (add_extra_columns store_bonus ["bonus"]).2 = some DBError.duplicateColumn := by
  exact rfl

/-- Claim C2 (amended): re-adding an attribute name already present does not
silently no-op; the ALTER TABLE statement for it fails with the engine's
duplicate-column error, and the failed call leaves `get_columns` unchanged. -/
theorem add_existing_column_fails_schema_unchanged (s : Store) (c : String)
    (h : c ∈ get_columns s) :
    (add_extra_columns s [c]).2 = some DBError.duplicateColumn ∧
    get_columns (add_extra_columns s [c]).1 = get_columns s := by
  have hany : (s.schema.any fun cc => cc.name == c) = true := by
    simp only [get_columns, List.mem_map] at h
    rcases h with ⟨col, hcol, hname⟩
    exact List.any_eq_true.mpr ⟨col, hcol, by simp [hname]⟩
  simp [add_extra_columns, add_column, hany]

/-- Claim C2 witness: instantiating the amended theorem at the concrete
store that already has a `bonus` column. -/
theorem add_existing_column_fails_witness :
    (add_extra_columns store_bonus ["bonus"]).2 = some DBError.duplicateColumn ∧
    get_columns (add_extra_columns store_bonus ["bonus"]).1 = get_columns store_bonus :=
  add_existing_column_fails_schema_unchanged store_bonus "bonus" (by decide)

/-- Claim C6 counterexample: updating the id 7, which no record carries, is
not an error at all — the UPDATE matches zero rows and returns the store
unchanged, contradicting the claim that it fails with NotFound. -/
theorem update_missing_id_no_error_cex :
    update_employee initStore
      [("name", Value.text "Ana"), ("department", Value.text "Sales"),
       ("salary", Value.num 1)] 7 = Except.ok initStore := by
  exact rfl

/-- Claim C6 (amended): when no row carries the given id (and the record is
a nonempty mapping over current columns, so the statement itself is
well-formed), `update_employee` succeeds and leaves the store unchanged — a
silent zero-row no-op, with no NotFound failure. -/
theorem update_missing_id_is_noop (s : Store) (employee : Record) (i : Int)
    (hne : employee ≠ [])
    (hkeys : ∀ kv ∈ employee, kv.1 ∈ get_columns s)
    (hmiss : ∀ r ∈ s.rows, r.1 ≠ i) :
    update_employee s employee i = Except.ok s := by
  have h1 : employee.isEmpty = false := by
    cases employee with
    | nil => exact absurd rfl hne
    | cons kv tl => rfl
  have h2 : (employee.any fun kv => s.schema.all fun c => c.name != kv.1) = false := by
    rw [List.any_eq_false]
    intro kv hkv
    have hk := hkeys kv hkv
    simp only [get_columns, List.mem_map] at hk
    rcases hk with ⟨col, hcol, hname⟩
    simp only [List.all_eq_true, not_forall]
    refine ⟨col, ?_⟩
    simp [hcol, hname]
  have h3 : (s.rows.any fun r => r.1 == i) = false := by
    rw [List.any_eq_false]
    intro r hr
    simp [hmiss r hr]
  have h4 : (s.rows.map fun r =>
      if r.1 = i then (r.1, updateVals s.schema employee r.2) else r) = s.rows := by
    apply map_noop
    intro r hr
    simp [hmiss r hr]
  simp [update_employee, h1, h2, h3, h4]

/-- Claim C6 witness: instantiating the amended theorem on the empty store
at id 1. -/
theorem update_missing_id_is_noop_witness :
    update_employee initStore [("name", Value.text "Bo")] 1 = Except.ok initStore :=
  update_missing_id_is_noop initStore [("name", Value.text "Bo")] 1
    (by decide) (by decide) (by decide)

/-- Claim C7: deleting an id and then fetching it reports absence, and a
second delete of the same id changes nothing (it affects zero rows and is
not an error — `delete_employee` is total). -/
theorem delete_get_absent_and_idempotent (s : Store) (i : Int) :
    select_employee_by_id (delete_employee s i) i = none ∧
    delete_employee (delete_employee s i) i = delete_employee s i := by
  constructor
  · simp only [select_employee_by_id, delete_employee]
    rw [List.find?_eq_none]
    intro r hr
    have := (List.mem_filter.mp hr).2
    simp only [bne_iff_ne, ne_eq] at this
    simp [this]
  · simp only [delete_employee, List.filter_filter]
    congr 1
    apply List.filter_congr
    intro r _
    exact Bool.and_self (r.1 != i)

/-- Claim C8 counterexample: on a store that already has a `bonus` column,
`addAttributes({"extra1", "bonus"})` fails — yet it has partially applied:
the failed call leaves `extra1` added, contradicting the claim that a
multi-column addAttributes never partially applies. -/
theorem add_columns_partial_apply_cex :
    (add_extra_columns store_bonus ["extra1", "bonus"]).2.isSome = true ∧
    get_columns (add_extra_columns store_bonus ["extra1", "bonus"]).1 ≠
      get_columns store_bonus := by
  exact ⟨rfl, by decide⟩

/-- Claim C8 (amended): `insert`, `update` and `delete` are single
statements and atomic, but `add_extra_columns` executes one ALTER TABLE per
name with immediate effect, so a batch whose first name `c1` is fresh and
whose second name `c2` collides with an existing column fails with the
duplicate-column error while leaving `c1` added — a partial application. -/
theorem add_columns_partial_application (s : Store) (c1 c2 : String)
    (h1 : c1 ∉ get_columns s) (h1id : c1 ≠ "id") (h2 : c2 ∈ get_columns s) :
    (add_extra_columns s [c1, c2]).2 = some DBError.duplicateColumn ∧
    c1 ∈ get_columns (add_extra_columns s [c1, c2]).1 := by
  have hid : (c1 == "id") = false := by simp [h1id]
  have hany1 : (s.schema.any fun c => c.name == c1) = false := by
    rw [List.any_eq_false]
    intro c hc
    intro hcc
    exact h1 (by
      simp only [get_columns, List.mem_map]
      exact ⟨c, hc, by simpa using hcc⟩)
  have hadd1 : add_column s c1 =
      Except.ok { s with schema := s.schema ++ [(Col.mk c1 false)] } := by
    simp [add_column, hid, hany1]
  have hany2 : ((s.schema ++ [(Col.mk c1 false)]).any
      fun c => c.name == c2) = true := by
    simp only [get_columns, List.mem_map] at h2
    rcases h2 with ⟨col, hcol, hname⟩
    exact List.any_eq_true.mpr ⟨col, List.mem_append_left _ hcol, by simp [hname]⟩
  have hadd2 : add_column { s with schema := s.schema ++ [(Col.mk c1 false)] } c2 =
      Except.error DBError.duplicateColumn := by
    simp [add_column, hany2]
  have hrun : add_extra_columns s [c1, c2] =
      ({ s with schema := s.schema ++ [(Col.mk c1 false)] },
        some DBError.duplicateColumn) := by
    simp only [add_extra_columns, hadd1, hadd2]
  rw [hrun]
  refine ⟨rfl, ?_⟩
  simp [get_columns]

/-- Claim C8 witness: instantiating the amended theorem at the concrete
store with a `bonus` column and the batch `["extra1", "bonus"]`. -/
theorem add_columns_partial_application_witness :
    (add_extra_columns store_bonus ["extra1", "bonus"]).2 = some DBError.duplicateColumn ∧
    "extra1" ∈ get_columns (add_extra_columns store_bonus ["extra1", "bonus"]).1 :=
  add_columns_partial_application store_bonus "extra1" "bonus"
    (by decide) (by decide) (by decide)

/-- Claim C9: a falsy filter argument is treated as absent.  Passing the
empty string for department or 0 for a salary bound contributes no
WHERE-clause conjunct, so the result equals the one with the parameter not
supplied; with all three falsy the query returns every record. -/
theorem falsy_filters_impose_no_constraint (s : Store) :
    (∀ d mn, select_employees_filtered s d mn (some 0) =
      select_employees_filtered s d mn none) ∧
    (∀ d mx, select_employees_filtered s d (some 0) mx =
      select_employees_filtered s d none mx) ∧
    (∀ mn mx, select_employees_filtered s (some "") mn mx =
      select_employees_filtered s none mn mx) ∧
    select_employees_filtered s (some "") (some 0) (some 0) =
      select_all_employees s := by
  refine ⟨fun d mn => ?_, fun d mx => ?_, fun mn mx => ?_, ?_⟩ <;>
    simp [select_employees_filtered, buildConds, select_all_employees]

/-- The code's accumulated WHERE clause agrees with the spec-side predicate
on every row, provided no supplied argument is falsy. -/
theorem conds_all_eq_spec (schema : List Col) (vals : List Value)
    (d : Option String) (mn mx : Option Int)
    (hd : d ≠ some "") (hmn : mn ≠ some 0) (hmx : mx ≠ some 0) :
    (buildConds d mn mx).all (evalCond schema vals) =
      spec_filter_pred d mn mx schema vals := by
  rcases d with _ | dv <;> rcases mn with _ | mnv <;> rcases mx with _ | mxv <;>
    simp_all [buildConds, spec_filter_pred, evalCond, List.all_append,
      Bool.and_assoc]

/-- Claim C4: with no falsy argument supplied, `select_employees_filtered`
returns exactly the records of `select_all_employees` satisfying the
AND-combined spec predicates (exact department equality, inclusive salary
bounds, absent predicate unconstraining), and on the empty store it returns
the empty list. -/
theorem filtered_matches_spec_predicate (s : Store) (d : Option String)
    (mn mx : Option Int)
    (hd : d ≠ some "") (hmn : mn ≠ some 0) (hmx : mx ≠ some 0) :
    select_employees_filtered s d mn mx =
      (select_all_employees s).filter
        (fun r => spec_filter_pred d mn mx s.schema r.2) ∧
    select_employees_filtered initStore d mn mx = [] := by
  constructor
  · apply List.filter_congr
    intro r _
    exact conds_all_eq_spec s.schema r.2 d mn mx hd hmn hmx
  · rfl

/-- Claim C4 witness: instantiating the theorem on a two-record store with
the filters department = Eng, salary within [50000, 80000]. -/
theorem filtered_matches_spec_predicate_witness :
    select_employees_filtered store_ex (some "Eng") (some 50000) (some 80000) =
      (select_all_employees store_ex).filter
        (fun r => spec_filter_pred (some "Eng") (some 50000) (some 80000)
          store_ex.schema r.2) ∧
    select_employees_filtered initStore (some "Eng") (some 50000) (some 80000) = [] :=
  filtered_matches_spec_predicate store_ex (some "Eng") (some 50000) (some 80000)
    (by decide) (by decide) (by decide)

/-- Claim C10 counterexample: the store holds one record with a NULL salary,
a minSalary bound of 0 is supplied, and the record is returned anyway —
because the code treats the falsy bound as absent — contradicting the claim
that a record with NULL salary is never returned when a salary bound is
supplied. -/
theorem null_salary_returned_with_zero_bound_cex :
    select_employees_filtered storeN none (some 0) none =
      [(1, [Value.text "N", Value.text "Eng", Value.null])] := by
  exact rfl

/-- Claim C10 (amended): when a nonzero (truthy) minSalary or maxSalary
bound is supplied, every returned record carries an actual numeric salary —
in particular no record whose salary is NULL or missing is ever returned,
since a NULL satisfies neither inclusive bound comparison. -/
theorem salary_bound_excludes_null_salary (s : Store) (d : Option String)
    (mn mx : Option Int) (r : Int × List Value)
    (hb : (∃ v, mn = some v ∧ v ≠ 0) ∨ (∃ v, mx = some v ∧ v ≠ 0))
    (hr : r ∈ select_employees_filtered s d mn mx) :
    ∃ n, colVal s.schema r.2 "salary" = some (Value.num n) := by
  have hall := (List.mem_filter.mp hr).2
  rw [List.all_eq_true] at hall
  rcases hb with ⟨v, hv, hv0⟩ | ⟨v, hv, hv0⟩
  · have hmem : Cond.salGE v ∈ buildConds d mn mx := by
      subst hv
      simp only [buildConds]
      refine List.mem_append_left _ (List.mem_append_right _ ?_)
      simp [hv0]
    have hev := hall _ hmem
    simp only [evalCond] at hev
    rcases hcv : colVal s.schema r.2 "salary" with _ | w
    · rw [hcv] at hev; cases hev
    · rcases w with _ | t | n
      · rw [hcv] at hev; cases hev
      · rw [hcv] at hev; cases hev
      · exact ⟨n, rfl⟩
  · have hmem : Cond.salLE v ∈ buildConds d mn mx := by
      subst hv
      simp only [buildConds]
      refine List.mem_append_right _ ?_
      simp [hv0]
    have hev := hall _ hmem
    simp only [evalCond] at hev
    rcases hcv : colVal s.schema r.2 "salary" with _ | w
    · rw [hcv] at hev; cases hev
    · rcases w with _ | t | n
      · rw [hcv] at hev; cases hev
      · rw [hcv] at hev; cases hev
      · exact ⟨n, rfl⟩

/-- Claim C10 witness: instantiating the amended theorem at the two-record
store with the bound minSalary = 50000 and the record of id 1. -/
theorem salary_bound_excludes_null_salary_witness :
    ∃ n, colVal store_ex.schema
      [Value.text "Ana", Value.text "Eng", Value.num 70000] "salary" =
        some (Value.num n) :=
  salary_bound_excludes_null_salary store_ex none (some 50000) none
    (1, [Value.text "Ana", Value.text "Eng", Value.num 70000])
    (Or.inl ⟨50000, rfl, by decide⟩) (by decide)

/-- A successful dict lookup returns the value of some entry of the dict. -/
theorem lookupVal_mem (employee : Record) (a : String) (v : Value)
    (h : lookupVal employee a = some v) : ∃ kv ∈ employee, kv.2 = v := by
  simp only [lookupVal, Option.map_eq_some'] at h
  rcases h with ⟨kv, hfind, hv⟩
  exact ⟨kv, List.mem_of_find?_eq_some hfind, hv⟩

/-- Claim C3 counterexample: after `addAttributes({"nickname"})`, inserting
a record that omits the `nickname` key does not raise anything — the INSERT
succeeds and stores NULL for the omitted attribute, contradicting the claim
that a key set differing from `currentAttributes()` fails with
ValidationError before any write. -/
theorem insert_missing_key_succeeds_cex :
    insert_employee store_nick rec_ana =
      Except.ok
        ({ schema := store_nick.schema,
           rows := [(1, [Value.text "Ana", Value.text "Eng", Value.num 70000,
             Value.null])] }, 1) := by
  exact rfl

/-- Claim C3 (amended): `insert_employee` performs no key-set validation at
all.  Any nonempty record whose keys are a subset of the current columns
and whose NOT NULL columns receive non-NULL values is inserted; every
current attribute the record omits is simply stored as NULL.  Only the
engine itself can reject (unknown column, NOT NULL violation) — there is no
ValidationError. -/
theorem insert_no_key_validation (s : Store) (employee : Record)
    (hne : employee ≠ [])
    (hsub : ∀ kv ∈ employee, kv.1 ∈ get_columns s)
    (hnn : ∀ c ∈ s.schema, c.nn = true →
      (lookupVal employee c.name).getD Value.null ≠ Value.null) :
    ∃ s2 i, insert_employee s employee = Except.ok (s2, i) ∧
      ∃ vals, select_employee_by_id s2 i = some (i, vals) ∧
        ∀ a ∈ get_columns s, lookupVal employee a = none →
          colVal s.schema vals a = some Value.null := by
  rw [insert_employee_ok s employee hne hsub hnn]
  refine ⟨_, newId s, rfl,
    s.schema.map (fun c => (lookupVal employee c.name).getD Value.null), ?_, ?_⟩
  · simp only [select_employee_by_id]
    exact find_appended_row s.rows (newId s) _ (fun r hr => newId_fresh s r hr)
  · intro a ha hnone
    have hmap := colVal_map s.schema
      (fun nm => (lookupVal employee nm).getD Value.null) a
      (by simpa [get_columns] using ha)
    rw [hmap]
    simp [hnone]

/-- Claim C3 witness: instantiating the amended theorem at the store with a
`nickname` column and the record omitting `nickname`. -/
theorem insert_no_key_validation_witness :
    ∃ s2 i, insert_employee store_nick rec_ana = Except.ok (s2, i) ∧
      ∃ vals, select_employee_by_id s2 i = some (i, vals) ∧
        ∀ a ∈ get_columns store_nick, lookupVal rec_ana a = none →
          colVal store_nick.schema vals a = some Value.null :=
  insert_no_key_validation store_nick rec_ana (by decide) (by decide) (by decide)

/-- Claim C5: inserting a valid record — nonempty, key set equal to
`currentAttributes()` (both inclusions below), all values actual non-NULL
values — succeeds, returns an id distinct from every existing row's id,
and an immediate `getById` with that id returns a row that agrees with the
input record on every current attribute: the identity round-trip. -/
theorem insert_getById_roundtrip (s : Store) (employee : Record)
    (hne : employee ≠ [])
    (hsub : ∀ kv ∈ employee, kv.1 ∈ get_columns s)
    (hsup : ∀ a ∈ get_columns s, (lookupVal employee a).isSome = true)
    (hval : ∀ kv ∈ employee, kv.2 ≠ Value.null) :
    ∃ s2 i, insert_employee s employee = Except.ok (s2, i) ∧
      (∀ r ∈ s.rows, r.1 ≠ i) ∧
      ∃ vals, select_employee_by_id s2 i = some (i, vals) ∧
        ∀ a ∈ get_columns s, colVal s.schema vals a = lookupVal employee a := by
  have hnn : ∀ c ∈ s.schema, c.nn = true →
      (lookupVal employee c.name).getD Value.null ≠ Value.null := by
    intro c hc _
    have hm : c.name ∈ get_columns s := by
      simp only [get_columns, List.mem_map]
      exact ⟨c, hc, rfl⟩
    have hs := hsup c.name hm
    rcases ho : lookupVal employee c.name with _ | v
    · rw [ho] at hs; cases hs
    · rcases lookupVal_mem employee c.name v ho with ⟨kv, hkv, hv⟩
      have := hval kv hkv
      rw [hv] at this
      simpa using this
  rw [insert_employee_ok s employee hne hsub hnn]
  refine ⟨_, newId s, rfl, fun r hr => newId_fresh s r hr,
    s.schema.map (fun c => (lookupVal employee c.name).getD Value.null), ?_, ?_⟩
  · simp only [select_employee_by_id]
    exact find_appended_row s.rows (newId s) _ (fun r hr => newId_fresh s r hr)
  · intro a ha
    have hmap := colVal_map s.schema
      (fun nm => (lookupVal employee nm).getD Value.null) a
      (by simpa [get_columns] using ha)
    rw [hmap]
    have hs := hsup a ha
    rcases ho : lookupVal employee a with _ | v
    · rw [ho] at hs; cases hs
    · simp [ho]

/-- Claim C5 witness: instantiating the round-trip theorem on the fresh
store with the record {name: Ana, department: Eng, salary: 70000}. -/
theorem insert_getById_roundtrip_witness :
    ∃ s2 i, insert_employee initStore rec_ana = Except.ok (s2, i) ∧
      (∀ r ∈ initStore.rows, r.1 ≠ i) ∧
      ∃ vals, select_employee_by_id s2 i = some (i, vals) ∧
        ∀ a ∈ get_columns initStore,
          colVal initStore.schema vals a = lookupVal rec_ana a :=
  insert_getById_roundtrip initStore rec_ana (by decide) (by decide)
    (by decide) (by decide)

end SqlInt
